import Mathlib

/-! Verification development for the async ytmusicapi client.

The subject is `ytmusicapi/ytmusic.py`: construction of a `YTMusic` client
(credential loading, visitor-identity bootstrap, language validation, cookie
verification) and its request dispatch (`_send_request`).  Python dictionaries
are embedded as association lists, the case-insensitive header map
(`requests.structures.CaseInsensitiveDict`) as an association list with
case-folding lookup, and raised Python exceptions as an explicit error type.
Helpers imported from `ytmusicapi.helpers` are not part of the analysed source
tree; each of those is modelled from the specification and marked as such in
its doc comment. -/

namespace YTM

/-- Decoded JSON documents, as produced by `orjson.loads`. -/
inductive Json where
  | null
  | bool (b : Bool)
  | num (n : Int)
  | str (s : String)
  | arr (elems : List Json)
  | obj (fields : List (String × Json))
deriving Repr, BEq

/-- Lookup in a Python dict embedded as an association list
(first binding wins; Python dicts never hold duplicate keys). -/
def dictGet (d : List (String × Json)) (k : String) : Option Json :=
  (d.find? (fun p => p.1 == k)).map (fun p => p.2)

/-- `d[k] = v` on an embedded Python dict: replace the existing binding
in place, or append a fresh one. -/
def dictSet (d : List (String × Json)) (k : String) (v : Json) :
    List (String × Json) :=
  if d.any (fun p => p.1 == k) then
    d.map (fun p => if p.1 == k then (k, v) else p)
  else d ++ [(k, v)]

/-- `d.update(other)` on embedded Python dicts: every binding of `other`
is written into `d`, overwriting bindings whose key already exists. -/
def dictUpdate (d other : List (String × Json)) : List (String × Json) :=
  other.foldl (fun acc p => dictSet acc p.1 p.2) d

/-- Case-insensitive key comparison of `requests.structures.CaseInsensitiveDict`,
at the character-list level (header names are ASCII). -/
def lowerEq (a b : String) : Bool :=
  a.data.map Char.toLower == b.data.map Char.toLower

/-- Lookup in a `CaseInsensitiveDict` of header names to values. -/
def ciGet (h : List (String × String)) (k : String) : Option String :=
  (h.find? (fun p => lowerEq p.1 k)).map (fun p => p.2)

/-- Membership test (`k in d`) on a `CaseInsensitiveDict`. -/
def ciContains (h : List (String × String)) (k : String) : Bool :=
  (ciGet h k).isSome

/-- `d[k] = v` on a `CaseInsensitiveDict`: replace any binding whose key
matches case-insensitively, or append a fresh one. -/
def ciSet (h : List (String × String)) (k v : String) :
    List (String × String) :=
  if h.any (fun p => lowerEq p.1 k) then
    h.map (fun p => if lowerEq p.1 k then (k, v) else p)
  else h ++ [(k, v)]

/-- Python exceptions raised by the embedded code: `Exception(msg)` raises at
the call sites of `ytmusic.py`, plus the built-in error classes the code can
hit (`AttributeError` on a missing attribute, `TypeError` from misused
operations, `KeyError` from a failed keyed lookup). -/
inductive PyError where
  | exception (msg : String)
  | attributeError (descr : String)
  | typeError (msg : String)
  | keyError (key : String)
deriving Repr, DecidableEq

/-- One decimal digit character (`str` of a digit). -/
def digitChar10 (d : Nat) : Char :=
  if d = 0 then '0' else if d = 1 then '1' else if d = 2 then '2'
  else if d = 3 then '3' else if d = 4 then '4' else if d = 5 then '5'
  else if d = 6 then '6' else if d = 7 then '7' else if d = 8 then '8'
  else '9'

/-- Fuel-driven core of the decimal rendering (the fuel exceeds the value, so
the out-of-fuel branch is never taken). -/
def natDigitsF : Nat → Nat → List Char
  | 0, _ => []
  | fuel + 1, n =>
    if n < 10 then [digitChar10 n]
    else natDigitsF fuel (n / 10) ++ [digitChar10 (n % 10)]

/-- Decimal rendering of a natural number, most significant digit first
(the embedding of Python `str(n)` for a non-negative `n`). -/
def natDigits (n : Nat) : List Char := natDigitsF (n + 1) n

/-- Decimal rendering as a `String`. -/
def natStr (n : Nat) : String := ⟨natDigits n⟩

/-- Modelled from the spec: the one-way hashing scheme of the Request Signer
(`get_authorization` in `ytmusicapi.helpers`, which is not under `src/`, uses
SHA-1).  A concrete deterministic digest stands in for it; the properties
proved below rely only on the digest being a function of its input and on the
`SAPISIDHASH <timestamp>_<hash>` output format, never on this digest body. -/
def specDigest (s : String) : String :=
  natStr (s.data.foldl (fun a c => (31 * a + c.toNat) % 4294967296) 7)

/-- Modelled from the spec: `get_authorization` (`ytmusicapi.helpers`, not
under `src/`).  Per the Request Signer contract it combines its argument (the
signing secret and the request origin, already joined by the caller at
ytmusic.py lines 153-155) with the current Unix timestamp, truncated to whole
seconds, under a one-way hash, and formats the result as
`SAPISIDHASH <timestamp>_<hash>`.  The ambient time `str(int(time.time()))`
becomes an explicit `timestamp` argument. -/
def get_authorization (auth : String) (timestamp : Nat) : String :=
  "SAPISIDHASH " ++ natStr timestamp ++ "_" ++
    specDigest (natStr timestamp ++ " " ++ auth)

/-- Modelled from the spec: the default unauthenticated header bundle built
by the headers helper of `ytmusicapi.helpers` (not under `src/`).  Per §4.1 it
carries no secret and no cookie, and per §6 an `Authorization` header is
present only when authenticated, so the default bundle has none of those; the
concrete fields are representative client metadata.  It also lacks
`x-goog-visitor-id`, which per §3 is obtained by the bootstrap call when not
already present. -/
def initHeaders : List (String × String) :=
  [("user-agent", "Mozilla/5.0 (Windows NT 10.0; Win64; x64)"),
   ("accept", "*/*"),
   ("accept-encoding", "gzip, deflate"),
   ("content-type", "application/json"),
   ("origin", "https://music.youtube.com")]

/-- Modelled from the spec: the fixed request-context payload built by the
context helper of `ytmusicapi.helpers` (not under `src/`), per §3: a nested
structure holding client metadata (whose locale field `hl` is filled in from
configuration right after construction of the payload) and a user section for
the optional brand-account override. -/
def initContext : List (String × Json) :=
  [("context", Json.obj
      [("client", Json.obj
          [("clientName", Json.str "WEB_REMIX"),
           ("clientVersion", Json.str "0.1")]),
       ("user", Json.obj [])])]

/-- Splitting of a character list at every occurrence of a separator
character. -/
def splitListOn (sep : Char) : List Char → List (List Char)
  | [] => [[]]
  | c :: rest =>
    let r := splitListOn sep rest
    if c = sep then [] :: r
    else
      match r with
      | [] => [[c]]
      | h :: t => (c :: h) :: t

/-- Splitting of a character list at its first `=`, into name and value. -/
def splitFirstEq : List Char → Option (List Char × List Char)
  | [] => none
  | c :: rest =>
    if c = '=' then some ([], rest)
    else
      match splitFirstEq rest with
      | some (k, v) => some (c :: k, v)
      | none => none

/-- Splitting of a raw `cookie` header value into name-value pairs
(`name=value` entries separated by `;`, surrounding blanks dropped). -/
def cookiePairs (raw : String) : List (String × String) :=
  (splitListOn ';' raw.data).filterMap fun part =>
    match splitFirstEq (part.dropWhile (fun c => c = ' ')) with
    | some (k, v) => some (⟨k⟩, ⟨v⟩)
    | none => none

/-- Modelled from the spec: `sapisid_from_cookie` (`ytmusicapi.helpers`, not
under `src/`) locates the session-identity value `__Secure-3PAPISID` inside
the `cookie` header field and returns it; per §4.1 and §3 it fails
(missing-required-field) when that value — or the cookie itself — is absent.
The failure is modelled as the `KeyError` which the caller at ytmusic.py
line 142 catches.  The argument is the result of `self.headers.get("cookie")`,
hence an `Option`. -/
def sapisid_from_cookie : Option String → Except PyError String
  | none => .error (.keyError "__Secure-3PAPISID")
  | some raw =>
    match (cookiePairs raw).find? (fun p => p.1 == "__Secure-3PAPISID") with
    | some p => .ok p.2
    | none => .error (.keyError "__Secure-3PAPISID")

/-- The environment `__init__` runs in: `isFile a` is `os.path.isfile a`;
`parseHeaders s` is the header map `CaseInsensitiveDict(orjson.loads(s))` when
`s` decodes to a JSON object of headers, `none` when decoding or mapping
construction raises; `supportedLanguages` is the locale directory listing
`os.listdir(locale_dir)` of ytmusic.py line 117. -/
structure Env where
  isFile : String → Bool
  parseHeaders : String → Option (List (String × String))
  supportedLanguages : List String

/-- The per-instance state a constructed `YTMusic` object carries, restricted
to the fields `_send_request` and the construction-time checks read:
`self.auth`, `self.headers`, `self.context`, `self.sapisid`, `self.language`. -/
structure Client where
  auth : Option String
  headers : List (String × String)
  context : List (String × Json)
  sapisid : Option String
  language : String
deriving Repr

/-- ytmusic.py lines 89-106: prepare `self.headers`.  On a truthy `auth`, the
file branch is taken when `os.path.isfile(auth)` holds — but line 95 then
calls `orjson.load`, an attribute the orjson module does not have (it exposes
only `loads`), so the file branch always raises inside the `try`; otherwise
the inline branch parses the string as JSON.  Any exception in the `try`
block is caught at line 99, a diagnostic is printed, and `self.headers` is
left unset (`none` here).  Without `auth`, the default bundle is used. -/
def prepareHeaders (env : Env) (auth : Option String) :
    Option (List (String × String)) :=
  match auth with
  | some a =>
    if env.isFile a then none
    else env.parseHeaders a
  | none => some initHeaders

/-- ytmusic.py line 115: `self.context["context"]["client"]["hl"] = language`.
The nested objects are those `initContext` put in place; the fallthrough
branches are unreachable for that payload. -/
def ctxSetClientHl (ctx : List (String × Json)) (language : String) :
    List (String × Json) :=
  match dictGet ctx "context" with
  | some (Json.obj inner) =>
    match dictGet inner "client" with
    | some (Json.obj client) =>
      dictSet ctx "context" (Json.obj (dictSet inner "client"
        (Json.obj (dictSet client "hl" (Json.str language)))))
    | _ => ctx
  | _ => ctx

/-- ytmusic.py line 135: `self.context["context"]["user"]["onBehalfOfUser"] = user`. -/
def ctxSetUser (ctx : List (String × Json)) (user : String) :
    List (String × Json) :=
  match dictGet ctx "context" with
  | some (Json.obj inner) =>
    match dictGet inner "user" with
    | some (Json.obj u) =>
      dictSet ctx "context" (Json.obj (dictSet inner "user"
        (Json.obj (dictSet u "onBehalfOfUser" (Json.str user)))))
    | _ => ctx
  | _ => ctx

/-- `YTMusic.__init__` (ytmusic.py lines 37-145), step by step in source
order, for a fresh instance:
lines 89-106 prepare `self.headers` (a caught load failure prints and leaves
the attribute unset); line 108 then reads `self.headers`, which raises
`AttributeError` when it was never assigned; lines 109-111 run the visitor
bootstrap when `x-goog-visitor-id` is absent — there, `asyncio.gather` is
handed a one-element list instead of an unpacked argument, and its
`ensure_future` raises `TypeError` on that list before any GET is issued (the
subscript `[0]` of the returned future would be a further `TypeError`), so
this branch always raises; lines 113-115 build the context and set the
locale; lines 116-122 validate the language, raising an `Exception` whose
message is produced by `str.join` with the two adjacent string literals of
lines 120-121 (they concatenate into a single separator — there is no `+`
before `", ".join`); lines 124-132 configure locale and translations
(environment-dependent, modelled as succeeding for a supported language);
line 135 applies the brand-account override; lines 138-145 verify the
credentials, turning the modelled `KeyError` of `sapisid_from_cookie` into
the cookie `Exception` of lines 143-145. -/
def init (env : Env) (auth : Option String) (user : Option String)
    (language : String) : Except PyError Client :=
  match prepareHeaders env auth with
  | none => .error (.attributeError "headers")
  | some headers =>
    if ciContains headers "x-goog-visitor-id" then
      let context1 := ctxSetClientHl initContext language
      if language ∈ env.supportedLanguages then
        let context2 := match user with
          | some u => ctxSetUser context1 u
          | none => context1
        match auth with
        | some _ =>
          match sapisid_from_cookie (ciGet headers "cookie") with
          | .ok sap =>
            .ok { auth := auth, headers := headers, context := context2,
                  sapisid := some sap, language := language }
          | .error (.keyError _) =>
            .error (.exception
              "Your cookie is missing the required value __Secure-3PAPISID")
          | .error e => .error e
        | none =>
          .ok { auth := none, headers := headers, context := context2,
                sapisid := none, language := language }
      else
        .error (.exception (String.intercalate
          "Language not supported. Supported languages are , "
          env.supportedLanguages))
    else
      .error (.typeError
        "An asyncio.Future, a coroutine or an awaitable is required")

/-- Modelled from the spec: the fixed API base URL (`YTM_BASE_API` of
`ytmusicapi.helpers`, not under `src/`; §4.4 requires a fixed base URL). -/
def YTM_BASE_API : String := "https://music.youtube.com/youtubei/v1/"

/-- Modelled from the spec: the fixed query parameter string (`YTM_PARAMS` of
`ytmusicapi.helpers`, not under `src/`; §4.4 requires fixed query
parameters). -/
def YTM_PARAMS : String := "?alt=json&key=MODELLED"

/-- ytmusic.py lines 151-155, the signing step, as a state transformer on the
client: when authenticated, the origin is read from the shared headers
(`origin`, falling back to `x-origin`), the token is computed from
`self.sapisid + " " + origin`, and — crucially — written into the shared
`self.headers` map, not into a per-call copy.  Returns the client whose
header map the call goes on to transmit, together with the token this call
computed (`none` when signing was skipped).  Unauthenticated clients skip the
block entirely.  The ambient current time is the `timestamp` argument. -/
def signStep (c : Client) (timestamp : Nat) :
    Except PyError (Client × Option String) :=
  match c.auth with
  | none => .ok (c, none)
  | some _ =>
    match c.sapisid with
    | none => .error (.attributeError "sapisid")
    | some sap =>
      match (ciGet c.headers "origin").orElse
          (fun _ => ciGet c.headers "x-origin") with
      | none =>
        .error (.typeError "can only concatenate str (not NoneType) to str")
      | some origin =>
        let tok := get_authorization (sap ++ " " ++ origin) timestamp
        .ok ({ c with headers := ciSet c.headers "Authorization" tok },
             some tok)

/-- The arguments `_send_request` evaluates for the `session.post` call of
lines 156-162: the URL, the headers object handed over (which is the shared
`self.headers`), the merged JSON body, and the Authorization token computed
by this call's signing step (`none` when signing was skipped). -/
structure PostArgs where
  url : String
  headers : List (String × String)
  body : List (String × Json)
  computedAuth : Option String
deriving Repr

/-- Everything observable about one `_send_request` call: either an exception
raised before the post call site (during signing), or the client state at the
post call together with the evaluated call arguments and the exception the
call raises there. -/
inductive SendResult where
  | preError (e : PyError)
  | postCall (client : Client) (args : PostArgs) (raised : PyError)
deriving Repr

/-- The `TypeError` every `_send_request` raises at the `session.post` call
of lines 156-162: the call passes the requests-style `proxies` keyword, and
`aiohttp.ClientSession._request` accepts only `proxy` (and no `**kwargs`), so
binding the arguments raises `TypeError` synchronously, after the argument
expressions have been evaluated and before anything is transmitted.  The
message is a schematic label for that exception. -/
def proxiesTypeError : PyError :=
  .typeError "unexpected keyword argument proxies"

/-- `_send_request` (ytmusic.py lines 147-174): line 150 merges the context
into the caller-supplied body with `body.update(self.context)` (an in-place
mutation of the dict supplied by the caller, embedded as the updated dict
being what the call goes on to use); lines 151-155 sign; lines 156-162 call
`session.post` on the fixed URL with the shared header map and the merged
body — and that call raises `proxiesTypeError` at the call site, so nothing
is transmitted and the response handling of lines 163-174 is unreachable
dead code.  (That dead code is additionally broken in itself: line 167 reads
`response.status_code`, an attribute aiohttp responses do not have.) -/
def sendRequest (c : Client) (endpoint : String) (body : List (String × Json))
    (additionalParams : String) (timestamp : Nat) : SendResult :=
  let body1 := dictUpdate body c.context
  match signStep c timestamp with
  | .error e => .preError e
  | .ok (c1, tok) =>
    .postCall c1
      { url := YTM_BASE_API ++ endpoint ++ YTM_PARAMS ++ additionalParams,
        headers := c1.headers, body := body1, computedAuth := tok }
      proxiesTypeError

/-- Decimal valuation of a digit string, inverse of `natDigits`. -/
def valDigits (l : List Char) : Nat :=
  l.foldl (fun a c => 10 * a + (c.toNat - 48)) 0

/-- The client state after the signing step, when it succeeds (the state whose
shared header map later calls read). -/
def afterSign (c : Client) (t : Nat) : Client :=
  match signStep c t with
  | .ok (c1, _) => c1
  | .error _ => c

/-- The exception a caller of `_send_request` observes (every call raises:
either during signing or at the post call site). -/
def SendResult.raisedError : SendResult → PyError
  | .preError e => e
  | .postCall _ _ e => e

/-- The session-identity value the Credential Store must locate: the
`__Secure-3PAPISID` entry of the `cookie` header field, `none` when the
cookie field or the entry is absent. -/
def sapisidLookup (hdrs : List (String × String)) : Option String :=
  match ciGet hdrs "cookie" with
  | none => none
  | some raw =>
    ((cookiePairs raw).find? (fun p => p.1 == "__Secure-3PAPISID")).map
      (fun p => p.2)

/-- Concrete fixture: an authenticated client as `__init__` would build it
from a complete credential bundle (visitor identity present, origin set,
cookie holding the session-identity value). -/
def cAuth : Client :=
  { auth := some "headers_auth.json",
    headers :=
      [("cookie", "CONSENT=YES+1; __Secure-3PAPISID=SecretSapisid"),
       ("origin", "https://music.youtube.com"),
       ("x-goog-visitor-id", "CgtVisitorToken"),
       ("user-agent", "Mozilla/5.0 (Windows NT 10.0; Win64; x64)")],
    context := ctxSetClientHl initContext "en",
    sapisid := some "SecretSapisid",
    language := "en" }

/-- Concrete fixture: an unauthenticated client (default header bundle, no
secret). -/
def cNoAuth : Client :=
  { auth := none,
    headers := initHeaders,
    context := ctxSetClientHl initContext "en",
    sapisid := none,
    language := "en" }

/-- Concrete fixture: an environment where no path is a file and no string is
valid JSON. -/
def envNone : Env :=
  { isFile := fun _ => false, parseHeaders := fun _ => none,
    supportedLanguages := ["en"] }

/-- Concrete fixture: a header bundle whose cookie lacks the session-identity
value. -/
def hdrsNoSapisid : List (String × String) :=
  [("cookie", "CONSENT=YES+1"),
   ("x-goog-visitor-id", "CgtVisitorToken"),
   ("origin", "https://music.youtube.com")]

/-- Concrete fixture: an environment where every auth string decodes to
`hdrsNoSapisid`. -/
def envNoSapisid : Env :=
  { isFile := fun _ => false, parseHeaders := fun _ => some hdrsNoSapisid,
    supportedLanguages := ["en"] }

/-- Concrete fixture: a header bundle whose cookie lacks the session-identity
value and which also lacks the visitor identity. -/
def hdrsNoSapisidNoVisitor : List (String × String) :=
  [("cookie", "CONSENT=YES+1"),
   ("origin", "https://music.youtube.com")]

/-- Concrete fixture: an environment where every auth string decodes to
`hdrsNoSapisidNoVisitor`. -/
def envNoSapisidNoVisitor : Env :=
  { isFile := fun _ => false,
    parseHeaders := fun _ => some hdrsNoSapisidNoVisitor,
    supportedLanguages := ["en"] }

/-- Concrete fixture: an environment where every auth string decodes to the
bundle of `cAuth`, and the locale directory lists two languages. -/
def envDeEn : Env :=
  { isFile := fun _ => false, parseHeaders := fun _ => some cAuth.headers,
    supportedLanguages := ["de", "en"] }

/-! Support lemmas -/

theorem digitChar10_ne_underscore (d : Nat) : digitChar10 d ≠ '_' := by
  unfold digitChar10
  repeat' split
  all_goals decide

theorem digitChar10_toNat (d : Nat) (h : d < 10) :
    (digitChar10 d).toNat = 48 + d := by
  interval_cases d <;> decide

theorem natDigitsF_fuel_eq :
    ∀ f1 : Nat, ∀ f2 n : Nat, n < f1 → n < f2 →
      natDigitsF f1 n = natDigitsF f2 n := by
  intro f1
  induction f1 with
  | zero => intro f2 n h1 _; omega
  | succ f1 ih =>
    intro f2 n h1 h2
    cases f2 with
    | zero => omega
    | succ f2 =>
      by_cases h : n < 10
      · simp [natDigitsF, h]
      · have hd : n / 10 < n := Nat.div_lt_self (by omega) (by decide)
        simp only [natDigitsF, if_neg h]
        rw [ih f2 (n / 10) (by omega) (by omega)]

theorem natDigits_lt (n : Nat) (h : n < 10) :
    natDigits n = [digitChar10 n] := by
  unfold natDigits natDigitsF
  simp [h]

theorem natDigits_ge (n : Nat) (h : ¬ n < 10) :
    natDigits n = natDigits (n / 10) ++ [digitChar10 (n % 10)] := by
  have hd : n / 10 < n := Nat.div_lt_self (by omega) (by decide)
  show natDigitsF (n + 1) n = natDigitsF (n / 10 + 1) (n / 10) ++ _
  conv_lhs => rw [natDigitsF]
  rw [if_neg h,
    natDigitsF_fuel_eq n (n / 10 + 1) (n / 10) (by omega) (by omega)]

theorem natDigits_no_underscore (n : Nat) : '_' ∉ natDigits n := by
  induction n using Nat.strong_induction_on with
  | _ n ih =>
    by_cases h : n < 10
    · rw [natDigits_lt n h, List.mem_singleton]
      intro hh
      exact digitChar10_ne_underscore n hh.symm
    · rw [natDigits_ge n h]
      intro hmem
      rcases List.mem_append.mp hmem with h1 | h2
      · exact ih (n / 10) (Nat.div_lt_self (by omega) (by decide)) h1
      · rw [List.mem_singleton] at h2
        exact digitChar10_ne_underscore (n % 10) h2.symm

theorem valDigits_append (l : List Char) (c : Char) :
    valDigits (l ++ [c]) = 10 * valDigits l + (c.toNat - 48) := by
  unfold valDigits
  rw [List.foldl_append]
  rfl

theorem valDigits_natDigits (n : Nat) : valDigits (natDigits n) = n := by
  induction n using Nat.strong_induction_on with
  | _ n ih =>
    by_cases h : n < 10
    · rw [natDigits_lt n h]
      have hv := digitChar10_toNat n h
      simp [valDigits, hv]
    · rw [natDigits_ge n h, valDigits_append,
        ih (n / 10) (Nat.div_lt_self (by omega) (by decide)),
        digitChar10_toNat (n % 10) (Nat.mod_lt n (by decide))]
      omega

theorem natDigits_inj {a b : Nat} (h : natDigits a = natDigits b) : a = b := by
  have hv := congrArg valDigits h
  rwa [valDigits_natDigits, valDigits_natDigits] at hv

theorem append_sep_inj (a : List Char) :
    ∀ (b u v : List Char), '_' ∉ a → '_' ∉ b →
      a ++ '_' :: u = b ++ '_' :: v → a = b ∧ u = v := by
  induction a with
  | nil =>
    intro b u v _ hb h
    cases b with
    | nil =>
      simp only [List.nil_append, List.cons.injEq] at h
      exact ⟨rfl, h.2⟩
    | cons c b2 =>
      simp only [List.nil_append, List.cons_append, List.cons.injEq] at h
      obtain ⟨h1, _⟩ := h
      subst h1
      exact absurd (List.mem_cons_self _ _) hb
  | cons c a2 ih =>
    intro b u v ha hb h
    cases b with
    | nil =>
      simp only [List.cons_append, List.nil_append, List.cons.injEq] at h
      obtain ⟨h1, _⟩ := h
      subst h1
      exact absurd (List.mem_cons_self _ _) ha
    | cons d b2 =>
      simp only [List.cons_append, List.cons.injEq] at h
      obtain ⟨h1, h2⟩ := h
      subst h1
      have ha2 : '_' ∉ a2 := fun hm => ha (List.mem_cons_of_mem _ hm)
      have hb2 : '_' ∉ b2 := fun hm => hb (List.mem_cons_of_mem _ hm)
      obtain ⟨e1, e2⟩ := ih b2 u v ha2 hb2 h2
      exact ⟨by rw [e1], e2⟩

theorem get_authorization_data (auth : String) (t : Nat) :
    (get_authorization auth t).data =
      "SAPISIDHASH ".data ++ (natDigits t ++ '_' ::
        (specDigest (natStr t ++ " " ++ auth)).data) := by
  show ((("SAPISIDHASH " ++ natStr t) ++ "_") ++
      specDigest (natStr t ++ " " ++ auth)).data = _
  rw [String.data_append, String.data_append, String.data_append,
    List.append_assoc, List.append_assoc]
  rfl

theorem get_authorization_timestamp_inj (auth : String) {t1 t2 : Nat}
    (h : get_authorization auth t1 = get_authorization auth t2) : t1 = t2 := by
  have hd := congrArg String.data h
  rw [get_authorization_data, get_authorization_data] at hd
  have hd2 := List.append_cancel_left hd
  exact natDigits_inj (append_sep_inj (natDigits t1) (natDigits t2) _ _
    (natDigits_no_underscore t1) (natDigits_no_underscore t2) hd2).1

theorem find?_map_set (k : String) (v : Json) :
    ∀ d : List (String × Json), d.any (fun p => p.1 == k) = true →
      (d.map (fun p => if p.1 == k then (k, v) else p)).find?
        (fun p => p.1 == k) = some (k, v) := by
  intro d
  induction d with
  | nil => intro h; simp at h
  | cons p rest ih =>
    intro hany
    cases hp : (p.1 == k) with
    | true =>
      rw [List.map_cons, if_pos hp, List.find?_cons]
      simp
    | false =>
      rw [List.map_cons, if_neg (by simp [hp]), List.find?_cons]
      simp only [hp]
      apply ih
      rw [List.any_cons, hp] at hany
      simpa using hany

theorem find?_map_set_ne (k k' : String) (v : Json) (hne : k' ≠ k) :
    ∀ d : List (String × Json),
      (d.map (fun p => if p.1 == k then (k, v) else p)).find?
        (fun p => p.1 == k') = d.find? (fun p => p.1 == k') := by
  intro d
  induction d with
  | nil => rfl
  | cons p rest ih =>
    cases hp : (p.1 == k) with
    | true =>
      have hpk : p.1 = k := eq_of_beq hp
      have h1 : (k == k') = false := by simpa using Ne.symm hne
      have h2 : (p.1 == k') = false := by rw [hpk]; exact h1
      rw [List.map_cons, if_pos hp, List.find?_cons, List.find?_cons]
      simp only [h1, h2]
      exact ih
    | false =>
      rw [List.map_cons, if_neg (by simp [hp]), List.find?_cons,
        List.find?_cons]
      cases hq : (p.1 == k') with
      | true => simp only [hq]
      | false =>
        simp only [hq]
        exact ih

theorem dictGet_dictSet_self (d : List (String × Json)) (k : String)
    (v : Json) : dictGet (dictSet d k v) k = some v := by
  unfold dictGet dictSet
  by_cases hany : d.any (fun p => p.1 == k) = true
  · rw [if_pos hany, find?_map_set k v d hany]
    rfl
  · rw [if_neg hany]
    have hnone : d.find? (fun p => p.1 == k) = none := by
      rw [List.find?_eq_none]
      intro x hx hpx
      exact hany (List.any_eq_true.mpr ⟨x, hx, hpx⟩)
    rw [List.find?_append, hnone]
    simp

theorem dictGet_dictSet_ne (d : List (String × Json)) (k k' : String)
    (v : Json) (hne : k' ≠ k) :
    dictGet (dictSet d k v) k' = dictGet d k' := by
  unfold dictGet dictSet
  by_cases hany : d.any (fun p => p.1 == k) = true
  · rw [if_pos hany, find?_map_set_ne k k' v hne d]
  · have h1 : (k == k') = false := by simpa using Ne.symm hne
    rw [if_neg hany, List.find?_append, List.find?_cons]
    simp [h1]

theorem dictGet_dictUpdate_of_none (other : List (String × Json)) :
    ∀ (d : List (String × Json)) (k : String), dictGet other k = none →
      dictGet (dictUpdate d other) k = dictGet d k := by
  induction other with
  | nil => intro d k _; rfl
  | cons p rest ih =>
    intro d k h
    unfold dictGet at h
    rw [List.find?_cons] at h
    cases hp : (p.1 == k) with
    | true => simp only [hp] at h; simp at h
    | false =>
      simp only [hp] at h
      have hrest : dictGet rest k = none := h
      show dictGet (dictUpdate (dictSet d p.1 p.2) rest) k = dictGet d k
      rw [ih (dictSet d p.1 p.2) k hrest]
      exact dictGet_dictSet_ne d p.1 k p.2
        (by intro hh; rw [← hh] at hp; simp at hp)

theorem dictGet_dictUpdate_of_some (other : List (String × Json)) :
    ∀ (d : List (String × Json)) (k : String) (v : Json),
      (other.map Prod.fst).Nodup → dictGet other k = some v →
      dictGet (dictUpdate d other) k = some v := by
  induction other with
  | nil => intro d k v _ h; simp [dictGet, List.find?] at h
  | cons p rest ih =>
    intro d k v hnodup h
    rw [List.map_cons, List.nodup_cons] at hnodup
    unfold dictGet at h
    rw [List.find?_cons] at h
    cases hp : (p.1 == k) with
    | true =>
      simp only [hp] at h
      have hpk : p.1 = k := eq_of_beq hp
      have hfind : rest.find? (fun p => p.1 == k) = none := by
        rw [List.find?_eq_none]
        intro x hx hpx
        have hxk : x.1 = k := eq_of_beq hpx
        have hmem := List.mem_map_of_mem Prod.fst hx
        rw [hxk, ← hpk] at hmem
        exact hnodup.1 hmem
      have hknotin : dictGet rest k = none := by
        unfold dictGet
        rw [hfind]
        rfl
      simp at h
      show dictGet (dictUpdate (dictSet d p.1 p.2) rest) k = some v
      rw [dictGet_dictUpdate_of_none rest (dictSet d p.1 p.2) k hknotin,
        hpk, ← h]
      exact dictGet_dictSet_self d k p.2
    | false =>
      simp only [hp] at h
      have hrest : dictGet rest k = some v := h
      exact ih (dictSet d p.1 p.2) k v hnodup.2 hrest

theorem sendRequest_postCall (c : Client) (endpoint : String)
    (body : List (String × Json)) (addP : String) (ts : Nat)
    (c1 : Client) (tok : Option String)
    (hsign : signStep c ts = .ok (c1, tok)) :
    sendRequest c endpoint body addP ts =
      .postCall c1
        { url := YTM_BASE_API ++ endpoint ++ YTM_PARAMS ++ addP,
          headers := c1.headers, body := dictUpdate body c.context,
          computedAuth := tok }
        proxiesTypeError := by
  unfold sendRequest
  rw [hsign]

theorem signStep_of_auth_none (c : Client) (ts : Nat) (h : c.auth = none) :
    signStep c ts = .ok (c, none) := by
  unfold signStep
  rw [h]

theorem sapisid_from_cookie_of_lookup_none (hdrs : List (String × String))
    (h : sapisidLookup hdrs = none) :
    sapisid_from_cookie (ciGet hdrs "cookie") =
      .error (.keyError "__Secure-3PAPISID") := by
  cases hc : ciGet hdrs "cookie" with
  | none => rfl
  | some raw =>
    have h2 : ((cookiePairs raw).find?
        (fun p => p.1 == "__Secure-3PAPISID")).map (fun p => p.2) = none := by
      unfold sapisidLookup at h
      rw [hc] at h
      exact h
    cases hf : (cookiePairs raw).find? (fun p => p.1 == "__Secure-3PAPISID")
        with
    | none =>
      simp only [sapisid_from_cookie]
      rw [hf]
    | some p => rw [hf] at h2; simp at h2

/-! Claims -/

/-- C1: the claim — that `_send_request` computes the Authorization header
into a per-call local value, leaving the shared header map of the client
unchanged by the signing step, so that no call transmits the token another
call computed — fails on the code: ytmusic.py line 153 writes the token into
the shared `self.headers`, which line 159 then transmits.  The shared map
holds no Authorization before any call; after the signing step of call A (at
time 1) it holds the token of A; after the signing step of call B (at time 2)
it holds the token of B, which differs from the token of A — so with the
interleaving A-signs, B-signs, A-posts, call A transmits the Authorization
value call B computed. -/
theorem signing_writes_shared_header_map :
    ciGet cAuth.headers "Authorization" = none ∧
    ciGet (afterSign cAuth 1).headers "Authorization" =
      some (get_authorization "SecretSapisid https://music.youtube.com" 1) ∧
    ciGet (afterSign (afterSign cAuth 1) 2).headers "Authorization" =
      some (get_authorization "SecretSapisid https://music.youtube.com" 2) ∧
    get_authorization "SecretSapisid https://music.youtube.com" 1 ≠
      get_authorization "SecretSapisid https://music.youtube.com" 2 := by
  refine ⟨rfl, rfl, rfl, fun h => ?_⟩
  exact absurd (get_authorization_timestamp_inj _ h) (by decide)

/-- C2: the claim — that a non-file, non-JSON `auth` argument fails
construction with a credential error raised at the loading step — fails on
the code: the `except` at ytmusic.py lines 99-103 prints a diagnostic and
continues with `self.headers` unset, and construction then crashes at line
108 with `AttributeError` when the unset attribute is read. -/
theorem malformed_credentials_swallowed_then_attribute_error :
    init envNone (some "not a file and not valid json") none "en" =
      .error (.attributeError "headers") := rfl

/-- C3: the claim — that a call whose HTTP response has status at least 400
fails with an error carrying the status code and the `error.message` field
of the body (401 with body error.message "x" yielding status 401 and message
"x") — fails on the code, and the claimed situation is unreachable: the
`session.post` call of line 156 passes the requests-style `proxies` keyword,
which aiohttp rejects, so every call raises `TypeError` at the call site
before any request is sent or any response received, and the
response-classification lines 163-174 are dead code.  (That dead code is
additionally broken in itself: line 167 reads `response.status_code`, an
attribute aiohttp responses lack.)  Evaluated here at an authenticated call:
the observed outcome is the `TypeError` of the post call, never an
ApiError-style exception. -/
theorem error_status_handling_unreachable_call_raises_type_error :
    sendRequest cAuth "browse" [] "" 1 =
      .postCall (afterSign cAuth 1)
        { url := YTM_BASE_API ++ "browse" ++ YTM_PARAMS ++ "",
          headers := (afterSign cAuth 1).headers,
          body := dictUpdate [] cAuth.context,
          computedAuth :=
            some (get_authorization
              "SecretSapisid https://music.youtube.com" 1) }
        proxiesTypeError ∧
    (sendRequest cAuth "browse" [] "" 1).raisedError = proxiesTypeError :=
  ⟨rfl, rfl⟩

/-- C4: the claim — that an unsupported language fails construction with an
error whose message enumerates the supported set verbatim — fails on the
code: lines 120-121 lack a `+` between the two string literals, so they
concatenate into a single `str.join` separator and the supported languages
are joined with the whole sentence between them. -/
theorem unsupported_language_message_garbled :
    init envDeEn (some "auth json text") none "xx" =
      .error (.exception
        "deLanguage not supported. Supported languages are , en") := rfl

/-- C5 (amended): for every authenticated construction whose loaded bundle
lacks the session-identity value inside its cookie (or lacks the cookie
field entirely) and which reaches the credential verification step of
ytmusic.py lines 138-145 — that is, the bundle contains the visitor identity
and the language is supported; otherwise the earlier construction steps
raise their own, unrelated errors first, see the counterexample —
construction fails with the credential `Exception` of lines 143-145 and with
no other error. -/
theorem missing_cookie_value_fails_with_credential_exception
    (env : Env) (a : String) (user : Option String) (lang : String)
    (hdrs : List (String × String))
    (hload : prepareHeaders env (some a) = some hdrs)
    (hvis : ciContains hdrs "x-goog-visitor-id" = true)
    (hlang : lang ∈ env.supportedLanguages)
    (hcookie : sapisidLookup hdrs = none) :
    init env (some a) user lang =
      .error (.exception
        "Your cookie is missing the required value __Secure-3PAPISID") := by
  unfold init
  rw [hload]
  have hsap := sapisid_from_cookie_of_lookup_none hdrs hcookie
  simp [hvis, hlang, hsap]

/-- Witness for C5 (amended) at a concrete bundle whose cookie lacks the
session-identity value. -/
theorem missing_cookie_value_fails_with_credential_exception_witness :
    init envNoSapisid (some "auth text") none "en" =
      .error (.exception
        "Your cookie is missing the required value __Secure-3PAPISID") :=
  missing_cookie_value_fails_with_credential_exception envNoSapisid
    "auth text" none "en" hdrsNoSapisid rfl rfl (by decide) rfl

/-- Counterexample to C5 as stated: a bundle missing the session-identity
value that also misses the visitor identity is inside the scope of the
claim, yet construction fails with the `TypeError` of the broken bootstrap
(lines 109-111) — an error unrelated to the credential failure — because the
visitor check at line 108 runs before the cookie verification of lines
138-145. -/
theorem missing_cookie_without_visitor_raises_unrelated_type_error :
    init envNoSapisidNoVisitor (some "auth text") none "en" =
      .error (.typeError
        "An asyncio.Future, a coroutine or an awaitable is required") ∧
    PyError.typeError
        "An asyncio.Future, a coroutine or an awaitable is required" ≠
      PyError.exception
        "Your cookie is missing the required value __Secure-3PAPISID" :=
  ⟨rfl, by decide⟩

/-- C6: the claim — that a call whose response has status 200 returns the
decoded JSON body unmodified to the caller — fails on the code: no call
ever receives a response at all.  The `session.post` call of line 156 passes
the requests-style `proxies` keyword, which aiohttp rejects, so every call
raises `TypeError` at the call site; nothing is transmitted, and the success
return of line 174 is dead code.  Evaluated here at a concrete call: the
caller observes the raised `TypeError`, never a returned body. -/
theorem status_200_return_unreachable_call_raises_type_error :
    sendRequest cNoAuth "browse" [] "" 0 =
      .postCall cNoAuth
        { url := YTM_BASE_API ++ "browse" ++ YTM_PARAMS ++ "",
          headers := cNoAuth.headers, body := dictUpdate [] cNoAuth.context,
          computedAuth := none }
        proxiesTypeError ∧
    (sendRequest cNoAuth "browse" [] "" 0).raisedError = proxiesTypeError :=
  ⟨rfl, rfl⟩

/-- C7: the Authorization token is a pure function of the signing input and
the timestamp, formatted `SAPISIDHASH <timestamp>_<hash>`, and for the same
signing input two distinct timestamps always produce distinct tokens. -/
theorem get_authorization_deterministic_and_timestamp_sensitive
    (auth : String) (t1 t2 : Nat) :
    get_authorization auth t1 =
      "SAPISIDHASH " ++ natStr t1 ++ "_" ++
        specDigest (natStr t1 ++ " " ++ auth) ∧
    (t1 ≠ t2 → get_authorization auth t1 ≠ get_authorization auth t2) :=
  ⟨rfl, fun hne heq => hne (get_authorization_timestamp_inj auth heq)⟩

/-- Witness for C7 at concrete timestamps 1 and 2. -/
theorem get_authorization_deterministic_and_timestamp_sensitive_witness :
    get_authorization "SecretSapisid https://music.youtube.com" 1 ≠
      get_authorization "SecretSapisid https://music.youtube.com" 2 :=
  (get_authorization_deterministic_and_timestamp_sensitive
    "SecretSapisid https://music.youtube.com" 1 2).2 (by decide)

/-- C8: the claim — that a bundle lacking the visitor identity triggers
exactly one bootstrap GET whose failure is fatal with a bootstrap error —
fails on the code: lines 109-111 pass a one-element list to `asyncio.gather`
(instead of unpacking it) and subscript the returned future, so whenever the
visitor identity is absent construction raises `TypeError` before any GET is
issued.  The default unauthenticated bundle lacks the identity, so the
branch is exercised on every unauthenticated construction. -/
theorem missing_visitor_id_bootstrap_raises_type_error :
    ciContains initHeaders "x-goog-visitor-id" = false ∧
    init envNone none none "en" =
      .error (.typeError
        "An asyncio.Future, a coroutine or an awaitable is required") :=
  ⟨rfl, rfl⟩

/-- C9: for every call on a client whose `auth` is `none`, the signing step
of lines 151-155 is skipped entirely: no Authorization value is computed,
and the header object the call evaluates and hands to `session.post` is the
client bundle unchanged — so no Authorization header is attached to it, the
default unauthenticated bundle containing none to begin with.  (The post
call itself then raises `proxiesTypeError` before transmitting anything,
see C6.) -/
theorem unauthenticated_call_skips_signing
    (c : Client) (endpoint : String) (body : List (String × Json))
    (addP : String) (ts : Nat)
    (hauth : c.auth = none) :
    sendRequest c endpoint body addP ts =
      .postCall c
        { url := YTM_BASE_API ++ endpoint ++ YTM_PARAMS ++ addP,
          headers := c.headers, body := dictUpdate body c.context,
          computedAuth := none }
        proxiesTypeError ∧
    ciGet initHeaders "Authorization" = none :=
  ⟨sendRequest_postCall c endpoint body addP ts c none
    (signStep_of_auth_none c ts hauth), rfl⟩

/-- Witness for C9 at a concrete unauthenticated client. -/
theorem unauthenticated_call_skips_signing_witness :
    sendRequest cNoAuth "next" [] "" 3 =
      .postCall cNoAuth
        { url := YTM_BASE_API ++ "next" ++ YTM_PARAMS ++ "",
          headers := cNoAuth.headers, body := dictUpdate [] cNoAuth.context,
          computedAuth := none }
        proxiesTypeError ∧
    ciGet initHeaders "Authorization" = none :=
  unauthenticated_call_skips_signing cNoAuth "next" [] "" 3 rfl

/-- C10 (amended): for every call whose signing step succeeds, the body the
call evaluates and hands to `session.post` is the caller-supplied dict with
the client context merged into it in place by `body.update(self.context)` at
line 150, and every binding of the context — in particular its `context`
key — overwrites any binding of the same key the caller supplied.  (The post
call then raises `proxiesTypeError` before transmitting anything, see the
counterexample.) -/
theorem body_update_merges_context_with_overwrite
    (c : Client) (endpoint : String) (body : List (String × Json))
    (addP : String) (ts : Nat) (c1 : Client)
    (tok : Option String)
    (hsign : signStep c ts = .ok (c1, tok))
    (hnodup : (c.context.map Prod.fst).Nodup) :
    sendRequest c endpoint body addP ts =
      .postCall c1
        { url := YTM_BASE_API ++ endpoint ++ YTM_PARAMS ++ addP,
          headers := c1.headers, body := dictUpdate body c.context,
          computedAuth := tok }
        proxiesTypeError ∧
    (∀ (k : String) (v : Json), dictGet c.context k = some v →
      dictGet (dictUpdate body c.context) k = some v) :=
  ⟨sendRequest_postCall c endpoint body addP ts c1 tok hsign,
   fun k v hv => dictGet_dictUpdate_of_some c.context body k v hnodup hv⟩

/-- Witness for C10 (amended): a caller-supplied `context` binding is
overwritten by the client context entry in the merged body the call
evaluates. -/
theorem body_update_merges_context_with_overwrite_witness :
    dictGet (dictUpdate [("context", Json.str "callerValue")] cNoAuth.context)
        "context" =
      some (Json.obj
        [("client", Json.obj
            [("clientName", Json.str "WEB_REMIX"),
             ("clientVersion", Json.str "0.1"),
             ("hl", Json.str "en")]),
         ("user", Json.obj [])]) :=
  (body_update_merges_context_with_overwrite cNoAuth "search"
    [("context", Json.str "callerValue")] "" 7 cNoAuth none rfl
    (by decide)).2 "context" _ rfl

/-- Counterexample to C10 as stated: the claim speaks of the transmitted
body, but no body is ever transmitted — the call whose merged body the
arguments carry raises `TypeError` at the `session.post` call site of line
156 (the requests-style `proxies` keyword) before any transmission, so the
overwrite can only be observed in the evaluated call arguments and in the
mutated dict of the caller. -/
theorem merged_body_never_transmitted :
    sendRequest cNoAuth "player" [("context", Json.str "callerValue")] "" 7 =
      .postCall cNoAuth
        { url := YTM_BASE_API ++ "player" ++ YTM_PARAMS ++ "",
          headers := cNoAuth.headers,
          body := dictUpdate [("context", Json.str "callerValue")]
            cNoAuth.context,
          computedAuth := none }
        proxiesTypeError := rfl

end YTM
